import Mathlib

/-!
# JOSARM `inc/mmu.h`: address decomposition, section entries, gate descriptors

A shallow embedding of the macros and records of `inc/mmu.h`.  The target is a
32-bit ARM core, so `uintptr_t`, `physaddr_t` and `uint32_t` are all 32-bit
unsigned integers; they are embedded as `Nat` with an explicit reduction
modulo `2 ^ 32` at every cast and at every operation that can leave the range.
-/

namespace Mmu

/-! ## Machine words -/

/-- Conversion to a 32-bit unsigned type (`(uintptr_t) x`, `(physaddr_t) x`,
`(uint32_t) x`, and the final `(void*)` of `PGADDR`). -/
def u32 (x : Nat) : Nat := x % 2 ^ 32

/-- Store into an unsigned bit-field of `w` bits: C keeps the value modulo `2 ^ w`. -/
def bitfield (w x : Nat) : Nat := x % 2 ^ w

/-! ## Part 1: paging constants and address macros -/

/-- `#define NPTENTRIES 4096` -/
def NPTENTRIES : Nat := 4096

/-- `#define PGSIZE 0x100000` -/
def PGSIZE : Nat := 0x100000

/-- `#define PGSHIFT 20` -/
def PGSHIFT : Nat := 20

/-- `#define PTSIZE 0x400000` -/
def PTSIZE : Nat := 0x400000

/-- `#define PTSHIFT 32` -/
def PTSHIFT : Nat := 32

/-- `#define PTXSHIFT 20` -/
def PTXSHIFT : Nat := 20

/-- `#define PGNUM(la) (((uintptr_t) (la)) >> PTXSHIFT)` -/
def PGNUM (la : Nat) : Nat := u32 la >>> PTXSHIFT

/-- `#define PTX(la) ((((uintptr_t) (la)) >> PTXSHIFT) & 0xFFF)` -/
def PTX (la : Nat) : Nat := (u32 la >>> PTXSHIFT) &&& 0xFFF

/-- `#define PGOFF(la) (((uintptr_t) (la)) & 0xFFFFF)` -/
def PGOFF (la : Nat) : Nat := u32 la &&& 0xFFFFF

/-- `#define PGADDR(d, t, o) ((void*) (0 | (t) << PTXSHIFT | (o)))`.
In C `<<` binds tighter than `|`, and `|` associates to the left.  The operands
are 32-bit unsigned values, so the shift is taken modulo `2 ^ 32`.  The first
argument `d` does not occur in the expansion. -/
def PGADDR (_d t o : Nat) : Nat := u32 ((0 ||| u32 (t <<< PTXSHIFT)) ||| o)

/-! ## Section-entry flag constants -/

/-- `#define PTE_AP_X 0x8C00` -/
def PTE_AP_X : Nat := 0x8C00

/-- `#define PTE_P_MASK 0x0003` -/
def PTE_P_MASK : Nat := 0x0003

/-- `#define PTE_P 0x0002` -/
def PTE_P : Nat := 0x0002

/-- `#define PTE_NX 0x0010` -/
def PTE_NX : Nat := 0x0010

/-- `#define PTE_C 0x0008` -/
def PTE_C : Nat := 0x0008

/-- `#define PTE_B 0x0004` -/
def PTE_B : Nat := 0x0004

/-- `#define PTE_SRUR 0x8C00` -/
def PTE_SRUR : Nat := 0x8C00

/-- `#define PTE_SRO 0x8400` -/
def PTE_SRO : Nat := 0x8400

/-- `#define PTE_SWO 0x0400` -/
def PTE_SWO : Nat := 0x0400

/-- `#define PTE_SWUR 0x0800` -/
def PTE_SWUR : Nat := 0x0800

/-- `#define PTE_SWUW 0x8C00` -/
def PTE_SWUW : Nat := 0x8C00

/-- `#define PTE_ADDR(pte) ((physaddr_t) (pte) & ~0xFFFFF)`.
The cast binds tighter than `&`.  `~0xFFFFF` is the `int` value `-0x100000`;
converted to the unsigned 32-bit type of the left operand it is
`2 ^ 32 - 1 - 0xFFFFF = 0xFFF00000`. -/
def PTE_ADDR (pte : Nat) : Nat := u32 pte &&& (2 ^ 32 - 1 - 0xFFFFF)

/-- Section-entry word.  The header has no constructor macro: an entry is
assembled by OR-ing a section base with one permission constant, the optional
`PTE_C`, `PTE_B`, `PTE_NX` flags and `PTE_P`, following the layout diagram above
the flag constants (`b | p | (c ? PTE_C : 0) | (bf ? PTE_B : 0) |
(xn ? PTE_NX : 0) | PTE_P`). -/
def sectionEntry (b p : Nat) (c bf xn : Bool) : Nat :=
  ((((b ||| p) ||| (if c then PTE_C else 0)) ||| (if bf then PTE_B else 0)) |||
    (if xn then PTE_NX else 0)) ||| PTE_P

/-- The five permission constants of the header, in the order
`PTE_SWUR, PTE_SRUR, PTE_SRO, PTE_SWO, PTE_SWUW`. -/
def permissionConstants : List Nat := [PTE_SWUR, PTE_SRUR, PTE_SRO, PTE_SWO, PTE_SWUW]

/-- Flag part of a section entry: everything except the base. -/
def sectionFlags (p : Nat) (c bf xn : Bool) : Nat :=
  (((p ||| (if c then PTE_C else 0)) ||| (if bf then PTE_B else 0)) |||
    (if xn then PTE_NX else 0)) ||| PTE_P

/-- Error names used for construction failures.  No expression or macro of the
header produces one: they only serve to state what the code does not do. -/
inductive MmuError where
  | InvalidAlignment
  | UnsupportedEntryType
  | PrivilegeOutOfRange
deriving DecidableEq, Repr

/-- Outcome of assembling a section entry.  The composition is a chain of `|`
on constants and the base, with no test of the base: it always yields the word
`sectionEntry b p c bf xn`. -/
def make_section_entry (b p : Nat) (c bf xn : Bool) : Except MmuError Nat :=
  Except.ok (sectionEntry b p c bf xn)

/-- Access right of one privilege level, as named in the header's APX/AP table. -/
inductive Access where
  | noAccess
  | readOnly
  | readWrite
deriving DecidableEq, Repr

/-- The APX/AP table of the header comment, as (privileged, unprivileged):
```
APX AP            Privileged    Unprivileged
 1  11 (0x8c00) = read-only     read-only
 1  01 (0x8400) = read-only     no access
 0  10 (0x0800) = read-write    read-only
 0  01 (0x0400) = read-write    no-access
```
Patterns the table does not list have no documented meaning. -/
def apTable (bits : Nat) : Option (Access × Access) :=
  if bits = 0x8c00 then some (Access.readOnly, Access.readOnly)
  else if bits = 0x8400 then some (Access.readOnly, Access.noAccess)
  else if bits = 0x0800 then some (Access.readWrite, Access.readOnly)
  else if bits = 0x0400 then some (Access.readWrite, Access.noAccess)
  else none

/-! ## Part 3: gate descriptors -/

/-- `struct Gatedesc`: nine unsigned bit-fields of widths
16, 16, 5, 3, 4, 1, 2, 1, 16, in declaration order. -/
structure Gatedesc where
  gd_off_15_0 : Nat
  gd_sel : Nat
  gd_args : Nat
  gd_rsv1 : Nat
  gd_type : Nat
  gd_s : Nat
  gd_dpl : Nat
  gd_p : Nat
  gd_off_31_16 : Nat
deriving DecidableEq, Repr

/-- `SETGATE(gate, istrap, sel, off, dpl)`: nine assignments to the bit-fields of
`gate`, in the order of the source.  Each store keeps the value modulo the
width of its field.  `STS_TG32` and `STS_IG32` are not defined in this header and
are parameters. -/
def SETGATE (STS_TG32 STS_IG32 : Nat) (gate : Gatedesc) (istrap sel off dpl : Nat) :
    Gatedesc :=
  let g1 := { gate with gd_off_15_0 := bitfield 16 (u32 off &&& 0xffff) }
  let g2 := { g1 with gd_sel := bitfield 16 sel }
  let g3 := { g2 with gd_args := bitfield 5 0 }
  let g4 := { g3 with gd_rsv1 := bitfield 3 0 }
  let g5 := { g4 with gd_type := bitfield 4 (if istrap ≠ 0 then STS_TG32 else STS_IG32) }
  let g6 := { g5 with gd_s := bitfield 1 0 }
  let g7 := { g6 with gd_dpl := bitfield 2 dpl }
  let g8 := { g7 with gd_p := bitfield 1 1 }
  { g8 with gd_off_31_16 := bitfield 16 (u32 off >>> 16) }

/-- `SETCALLGATE(gate, sel, off, dpl)`: as `SETGATE` with `gd_type = STS_CG32`
(a parameter, not defined in this header). -/
def SETCALLGATE (STS_CG32 : Nat) (gate : Gatedesc) (sel off dpl : Nat) : Gatedesc :=
  let g1 := { gate with gd_off_15_0 := bitfield 16 (u32 off &&& 0xffff) }
  let g2 := { g1 with gd_sel := bitfield 16 sel }
  let g3 := { g2 with gd_args := bitfield 5 0 }
  let g4 := { g3 with gd_rsv1 := bitfield 3 0 }
  let g5 := { g4 with gd_type := bitfield 4 STS_CG32 }
  let g6 := { g5 with gd_s := bitfield 1 0 }
  let g7 := { g6 with gd_dpl := bitfield 2 dpl }
  let g8 := { g7 with gd_p := bitfield 1 1 }
  { g8 with gd_off_31_16 := bitfield 16 (u32 off >>> 16) }

/-- Outcome of expanding `SETGATE`: the body is a block of nine unconditional
assignments with no test of its arguments, so it always completes with the
updated descriptor. -/
def SETGATE_outcome (STS_TG32 STS_IG32 : Nat) (gate : Gatedesc)
    (istrap sel off dpl : Nat) : Except MmuError Gatedesc :=
  Except.ok (SETGATE STS_TG32 STS_IG32 gate istrap sel off dpl)

/-- Outcome of expanding `SETCALLGATE`: always the updated descriptor. -/
def SETCALLGATE_outcome (STS_CG32 : Nat) (gate : Gatedesc) (sel off dpl : Nat) :
    Except MmuError Gatedesc :=
  Except.ok (SETCALLGATE STS_CG32 gate sel off dpl)

/-- A descriptor with every field zero, used as a prior value. -/
def zeroGate : Gatedesc := ⟨0, 0, 0, 0, 0, 0, 0, 0, 0⟩

/-- Bit widths of the nine `struct Gatedesc` bit-fields, in declaration order. -/
def Gatedesc_widths : List Nat := [16, 16, 5, 3, 4, 1, 2, 1, 16]

/-! ## Part 3: pseudo-descriptors -/

/-- Conversion to `uint16_t`. -/
def u16 (x : Nat) : Nat := x % 2 ^ 16

/-- `struct Pseudodesc { uint16_t pd_lim; uint32_t pd_base; } __attribute__ ((packed))`. -/
structure Pseudodesc where
  pd_lim : Nat
  pd_base : Nat
deriving DecidableEq, Repr

/-- Initialisation `struct Pseudodesc pd = { lim, base }`: each value is
converted to the type of the field that receives it. -/
def Pseudodesc.init (lim base : Nat) : Pseudodesc :=
  { pd_lim := u16 lim, pd_base := u32 base }

/-- Bit widths of the two `struct Pseudodesc` fields, in declaration order.  The
record is `packed`, so no padding separates or follows them. -/
def Pseudodesc_widths : List Nat := [16, 32]

/-! ## Part 3: task state segment -/

/-- The integer types used by `struct Taskstate`. -/
inductive CType where
  | uint16_t
  | uint32_t
  | uintptr_t
  | physaddr_t
deriving DecidableEq, Repr

/-- Size in bytes.  `uintptr_t` and `physaddr_t` come from `inc/types.h`; on the
32-bit target both are 32-bit integers. -/
def CType.size : CType → Nat
  | CType.uint16_t => 2
  | CType.uint32_t => 4
  | CType.uintptr_t => 4
  | CType.physaddr_t => 4

/-- The field names of `struct Taskstate`. -/
inductive TsField where
  | ts_link | ts_esp0 | ts_ss0 | ts_padding1 | ts_esp1 | ts_ss1 | ts_padding2
  | ts_esp2 | ts_ss2 | ts_padding3 | ts_cr3 | ts_eip | ts_eflags | ts_eax | ts_ecx
  | ts_edx | ts_ebx | ts_esp | ts_ebp | ts_esi | ts_edi | ts_es | ts_padding4
  | ts_cs | ts_padding5 | ts_ss | ts_padding6 | ts_ds | ts_padding7 | ts_fs
  | ts_padding8 | ts_gs | ts_padding9 | ts_ldt | ts_padding10 | ts_t | ts_iomb
deriving DecidableEq, Repr

/-- `struct Taskstate`: every field with its declared type, in declaration order. -/
def Taskstate_fields : List (TsField × CType) :=
  [ (TsField.ts_link, CType.uint32_t),
    (TsField.ts_esp0, CType.uintptr_t),
    (TsField.ts_ss0, CType.uint16_t),
    (TsField.ts_padding1, CType.uint16_t),
    (TsField.ts_esp1, CType.uintptr_t),
    (TsField.ts_ss1, CType.uint16_t),
    (TsField.ts_padding2, CType.uint16_t),
    (TsField.ts_esp2, CType.uintptr_t),
    (TsField.ts_ss2, CType.uint16_t),
    (TsField.ts_padding3, CType.uint16_t),
    (TsField.ts_cr3, CType.physaddr_t),
    (TsField.ts_eip, CType.uintptr_t),
    (TsField.ts_eflags, CType.uint32_t),
    (TsField.ts_eax, CType.uint32_t),
    (TsField.ts_ecx, CType.uint32_t),
    (TsField.ts_edx, CType.uint32_t),
    (TsField.ts_ebx, CType.uint32_t),
    (TsField.ts_esp, CType.uintptr_t),
    (TsField.ts_ebp, CType.uintptr_t),
    (TsField.ts_esi, CType.uint32_t),
    (TsField.ts_edi, CType.uint32_t),
    (TsField.ts_es, CType.uint16_t),
    (TsField.ts_padding4, CType.uint16_t),
    (TsField.ts_cs, CType.uint16_t),
    (TsField.ts_padding5, CType.uint16_t),
    (TsField.ts_ss, CType.uint16_t),
    (TsField.ts_padding6, CType.uint16_t),
    (TsField.ts_ds, CType.uint16_t),
    (TsField.ts_padding7, CType.uint16_t),
    (TsField.ts_fs, CType.uint16_t),
    (TsField.ts_padding8, CType.uint16_t),
    (TsField.ts_gs, CType.uint16_t),
    (TsField.ts_padding9, CType.uint16_t),
    (TsField.ts_ldt, CType.uint16_t),
    (TsField.ts_padding10, CType.uint16_t),
    (TsField.ts_t, CType.uint16_t),
    (TsField.ts_iomb, CType.uint16_t) ]

/-- Whether a field is one of the explicit `ts_paddingN` fields. -/
def TsField.isPadding : TsField → Bool
  | TsField.ts_padding1 | TsField.ts_padding2 | TsField.ts_padding3
  | TsField.ts_padding4 | TsField.ts_padding5 | TsField.ts_padding6
  | TsField.ts_padding7 | TsField.ts_padding8 | TsField.ts_padding9
  | TsField.ts_padding10 => true
  | _ => false

/-- The ten segment-selector fields of `struct Taskstate`. -/
def Taskstate_selectors : List TsField :=
  [TsField.ts_ss0, TsField.ts_ss1, TsField.ts_ss2, TsField.ts_es, TsField.ts_cs,
   TsField.ts_ss, TsField.ts_ds, TsField.ts_fs, TsField.ts_gs, TsField.ts_ldt]

/-- Byte offset of a field as a running sum: the sizes of the fields declared
before it, added up. -/
def Taskstate_offset (f : TsField) : Nat :=
  ((Taskstate_fields.takeWhile (fun e => e.1 != f)).map (fun e => e.2.size)).sum

/-- The field declared immediately after `f`, if any. -/
def Taskstate_next (f : TsField) : Option (TsField × CType) :=
  ((Taskstate_fields.dropWhile (fun e => e.1 != f)).drop 1).head?

/-- Length of the record in bytes: the sizes of all fields added up. -/
def Taskstate_size : Nat := (Taskstate_fields.map (fun e => e.2.size)).sum

/-! ## Helper lemmas on 32-bit words -/

theorem u32_of_lt {x : Nat} (h : x < 2 ^ 32) : u32 x = x :=
  Nat.mod_eq_of_lt h

theorem and_low20 (x : Nat) : x &&& 0xFFFFF = x % 2 ^ 20 :=
  Nat.and_pow_two_sub_one_eq_mod x 20

theorem and_low16 (x : Nat) : x &&& 0xFFFF = x % 2 ^ 16 :=
  Nat.and_pow_two_sub_one_eq_mod x 16

theorem and_low12 (x : Nat) : x &&& 0xFFF = x % 2 ^ 12 :=
  Nat.and_pow_two_sub_one_eq_mod x 12

theorem PTX_eq_div {addr : Nat} (h : addr < 2 ^ 32) : PTX addr = addr / 2 ^ 20 := by
  unfold PTX PTXSHIFT
  rw [u32_of_lt h, Nat.shiftRight_eq_div_pow, and_low12]
  apply Nat.mod_eq_of_lt
  omega

theorem PGOFF_eq_mod {addr : Nat} (h : addr < 2 ^ 32) : PGOFF addr = addr % 2 ^ 20 := by
  unfold PGOFF
  rw [u32_of_lt h, and_low20]

theorem PGADDR_eq_add (d : Nat) {t o : Nat} (ht : t < 2 ^ 12) (ho : o < 2 ^ 20) :
    PGADDR d t o = 2 ^ 20 * t + o := by
  unfold PGADDR PTXSHIFT
  have h1 : t <<< 20 = 2 ^ 20 * t := by rw [Nat.shiftLeft_eq, Nat.mul_comm]
  have h2 : 2 ^ 20 * t < 2 ^ 32 := by omega
  rw [h1, u32_of_lt h2, Nat.zero_or, ← Nat.mul_add_lt_is_or ho]
  apply u32_of_lt
  omega

theorem testBit_false_of_lt {x i j : Nat} (h : x < 2 ^ i) (hij : i ≤ j) :
    x.testBit j = false :=
  Nat.testBit_lt_two_pow (lt_of_lt_of_le h (Nat.pow_le_pow_right (by decide) hij))

theorem testBit_false_of_aligned {b i : Nat} (hb : b % 2 ^ 20 = 0) (hi : i < 20) :
    b.testBit i = false := by
  have h := Nat.testBit_mod_two_pow b 20 i
  rw [hb] at h
  simpa [hi] using h.symm

/-- Masking a word whose low 20 bits are free with a low-20-bit mask only sees the flags. -/
theorem aligned_or_and_low {b f m : Nat} (hb : b % 2 ^ 20 = 0) (hm : m < 2 ^ 20) :
    (b ||| f) &&& m = f &&& m := by
  apply Nat.eq_of_testBit_eq
  intro i
  rw [Nat.testBit_and, Nat.testBit_or, Nat.testBit_and]
  by_cases hi : i < 20
  · rw [testBit_false_of_aligned hb hi, Bool.false_or]
  · rw [testBit_false_of_lt hm (Nat.le_of_not_lt hi), Bool.and_false, Bool.and_false]

/-- The mask `~0xFFFFF` keeps exactly bits 20..31 of a 32-bit word. -/
theorem PTE_ADDR_eq {x : Nat} (h : x < 2 ^ 32) : PTE_ADDR x = x - x % 2 ^ 20 := by
  unfold PTE_ADDR
  rw [u32_of_lt h]
  have hm : (2 ^ 32 - 1 - 0xFFFFF : Nat) = (2 ^ 12 - 1) <<< 20 := by decide
  have hx : x - x % 2 ^ 20 = (x >>> 20) <<< 20 := by
    rw [Nat.shiftLeft_eq, Nat.shiftRight_eq_div_pow]
    have := Nat.div_add_mod x (2 ^ 20)
    omega
  rw [hm, hx]
  apply Nat.eq_of_testBit_eq
  intro i
  rw [Nat.testBit_and, Nat.testBit_shiftLeft, Nat.testBit_shiftLeft,
    Nat.testBit_two_pow_sub_one, Nat.testBit_shiftRight]
  by_cases hi : 20 ≤ i
  · have e : 20 + (i - 20) = i := by omega
    rw [e]
    by_cases h32 : i < 32
    · have : i - 20 < 12 := by omega
      simp [hi, this]
    · rw [testBit_false_of_lt h (Nat.le_of_not_lt h32)]
      simp
  · simp [hi]

theorem or_lt_two_pow20 {a b : Nat} (ha : a < 2 ^ 20) (hb : b < 2 ^ 20) :
    a ||| b < 2 ^ 20 :=
  Nat.or_lt_two_pow ha hb

theorem sectionEntry_eq (b p : Nat) (c bf xn : Bool) :
    sectionEntry b p c bf xn = b ||| sectionFlags p c bf xn := by
  unfold sectionEntry sectionFlags
  simp only [Nat.or_assoc]

theorem sectionFlags_lt {p : Nat} (hp : p < 2 ^ 20) (c bf xn : Bool) :
    sectionFlags p c bf xn < 2 ^ 20 := by
  unfold sectionFlags PTE_C PTE_B PTE_NX PTE_P
  refine or_lt_two_pow20 (or_lt_two_pow20 (or_lt_two_pow20 (or_lt_two_pow20 hp ?_) ?_) ?_) ?_
  · cases c <;> decide
  · cases bf <;> decide
  · cases xn <;> decide
  · decide

/-- OR-ing low-20-bit flags onto a 32-bit word does not change its `PTE_ADDR`. -/
theorem PTE_ADDR_or_low {b f : Nat} (hb : b < 2 ^ 32) (hf : f < 2 ^ 20) :
    PTE_ADDR (b ||| f) = b - b % 2 ^ 20 := by
  have hlt : b ||| f < 2 ^ 32 :=
    Nat.or_lt_two_pow hb (lt_of_lt_of_le hf (by decide))
  have e : PTE_ADDR (b ||| f) = PTE_ADDR b := by
    unfold PTE_ADDR
    rw [u32_of_lt hlt, u32_of_lt hb]
    apply Nat.eq_of_testBit_eq
    intro i
    rw [Nat.testBit_and, Nat.testBit_and, Nat.testBit_or]
    by_cases hi : 20 ≤ i
    · rw [testBit_false_of_lt hf hi, Bool.or_false]
    · have hm : (2 ^ 32 - 1 - 0xFFFFF : Nat) = (2 ^ 12 - 1) <<< 20 := by decide
      rw [hm, Nat.testBit_shiftLeft]
      simp [hi]
  rw [e, PTE_ADDR_eq hb]

theorem mem_permissionConstants_lt {p : Nat} (hp : p ∈ permissionConstants) :
    p < 2 ^ 20 := by
  simp only [permissionConstants, List.mem_cons, List.mem_singleton, List.not_mem_nil,
    or_false] at hp
  rcases hp with h | h | h | h | h <;> subst h <;> decide

/-! ## Claims -/

/-- C1: compose undoes decompose.  For every 32-bit unsigned address `addr` and
every value of the ignored first argument `d`,
`PGADDR(d, PTX(addr), PGOFF(addr))` equals `addr`. -/
theorem PGADDR_PTX_PGOFF (d addr : Nat) (h : addr < 2 ^ 32) :
    PGADDR d (PTX addr) (PGOFF addr) = addr := by
  have ht : PTX addr < 2 ^ 12 := by rw [PTX_eq_div h]; omega
  have ho : PGOFF addr < 2 ^ 20 := by rw [PGOFF_eq_mod h]; omega
  rw [PGADDR_eq_add d ht ho, PTX_eq_div h, PGOFF_eq_mod h]
  exact Nat.div_add_mod addr (2 ^ 20)

/-- Witness for C1 at `addr = 0xDEADBEEF`, `d = 7`. -/
theorem PGADDR_PTX_PGOFF_witness :
    0xDEADBEEF < 2 ^ 32 ∧ PGADDR 7 (PTX 0xDEADBEEF) (PGOFF 0xDEADBEEF) = 0xDEADBEEF :=
  ⟨by decide, PGADDR_PTX_PGOFF 7 0xDEADBEEF (by decide)⟩

/-- C2: decompose undoes compose.  For every table index `t` in `[0, 4095]` and
every offset `o` in `[0, 0xFFFFF]`, `PTX(PGADDR(d, t, o)) = t` and
`PGOFF(PGADDR(d, t, o)) = o`. -/
theorem PTX_PGOFF_PGADDR (d t o : Nat) (ht : t ≤ 4095) (ho : o ≤ 0xFFFFF) :
    PTX (PGADDR d t o) = t ∧ PGOFF (PGADDR d t o) = o := by
  have ht' : t < 2 ^ 12 := by omega
  have ho' : o < 2 ^ 20 := by omega
  have hlt : 2 ^ 20 * t + o < 2 ^ 32 := by omega
  rw [PGADDR_eq_add d ht' ho', PTX_eq_div hlt, PGOFF_eq_mod hlt]
  constructor
  · rw [Nat.mul_add_div (by decide), Nat.div_eq_of_lt ho', Nat.add_zero]
  · rw [Nat.mul_add_mod, Nat.mod_eq_of_lt ho']

/-- Witness for C2 at `t = 4095`, `o = 0xFFFFF`, `d = 1`. -/
theorem PTX_PGOFF_PGADDR_witness :
    PTX (PGADDR 1 4095 0xFFFFF) = 4095 ∧ PGOFF (PGADDR 1 4095 0xFFFFF) = 0xFFFFF :=
  PTX_PGOFF_PGADDR 1 4095 0xFFFFF (by decide) (by decide)

/-- C3: base-address extraction is independent of the flag bits.  For every
1 MiB-aligned 32-bit base `b` and every value `f` that fits in the low 20 bits,
`PTE_ADDR(b | f) = b`. -/
theorem PTE_ADDR_or_flags (b f : Nat) (hb : b < 2 ^ 32) (hal : b % 2 ^ 20 = 0)
    (hf : f ≤ 0xFFFFF) : PTE_ADDR (b ||| f) = b := by
  have hf' : f < 2 ^ 20 := by omega
  rw [PTE_ADDR_or_low hb hf', hal, Nat.sub_zero]

/-- Witness for C3 at `b = 0xABC00000`, `f = 0xFFFFF`. -/
theorem PTE_ADDR_or_flags_witness : PTE_ADDR (0xABC00000 ||| 0xFFFFF) = 0xABC00000 :=
  PTE_ADDR_or_flags 0xABC00000 0xFFFFF (by decide) (by decide) (by decide)

/-- C4: section-entry pack/unpack round trip.  For every 1 MiB-aligned 32-bit
base `b`, every permission constant `p` of the header and all booleans `c`, `bf`,
`xn`, the word `w = b | p | (c ? PTE_C : 0) | (bf ? PTE_B : 0) | (xn ? PTE_NX : 0)
| PTE_P` has type bits `PTE_P`, `PTE_ADDR(w) = b`, `w & PTE_AP_X = p`, and its
`PTE_C`, `PTE_B`, `PTE_NX` bits are set exactly when `c`, `bf`, `xn` are. -/
theorem sectionEntry_roundtrip (b p : Nat) (c bf xn : Bool) (hb : b < 2 ^ 32)
    (hal : b % 2 ^ 20 = 0) (hp : p ∈ permissionConstants) :
    sectionEntry b p c bf xn &&& PTE_P_MASK = PTE_P ∧
    PTE_ADDR (sectionEntry b p c bf xn) = b ∧
    sectionEntry b p c bf xn &&& PTE_AP_X = p ∧
    (sectionEntry b p c bf xn &&& PTE_C ≠ 0 ↔ c = true) ∧
    (sectionEntry b p c bf xn &&& PTE_B ≠ 0 ↔ bf = true) ∧
    (sectionEntry b p c bf xn &&& PTE_NX ≠ 0 ↔ xn = true) := by
  have hfl := sectionFlags_lt (mem_permissionConstants_lt hp) c bf xn
  rw [sectionEntry_eq, PTE_ADDR_or_low hb hfl, hal, Nat.sub_zero,
    aligned_or_and_low hal (by decide : PTE_P_MASK < 2 ^ 20),
    aligned_or_and_low hal (by decide : PTE_AP_X < 2 ^ 20),
    aligned_or_and_low hal (by decide : PTE_C < 2 ^ 20),
    aligned_or_and_low hal (by decide : PTE_B < 2 ^ 20),
    aligned_or_and_low hal (by decide : PTE_NX < 2 ^ 20)]
  simp only [permissionConstants, List.mem_cons, List.mem_singleton, List.not_mem_nil,
    or_false] at hp
  rcases hp with h | h | h | h | h <;> subst h <;>
    cases c <;> cases bf <;> cases xn <;>
    exact ⟨by decide, rfl, by decide, by decide, by decide, by decide⟩

/-- Witness for C4: `b = 0x00200000`, `p = PTE_SWUR`, cacheable, not bufferable,
executable. -/
theorem sectionEntry_roundtrip_witness :
    sectionEntry 0x00200000 PTE_SWUR true false false &&& PTE_P_MASK = PTE_P ∧
    PTE_ADDR (sectionEntry 0x00200000 PTE_SWUR true false false) = 0x00200000 ∧
    sectionEntry 0x00200000 PTE_SWUR true false false &&& PTE_AP_X = PTE_SWUR ∧
    (sectionEntry 0x00200000 PTE_SWUR true false false &&& PTE_C ≠ 0 ↔ true = true) ∧
    (sectionEntry 0x00200000 PTE_SWUR true false false &&& PTE_B ≠ 0 ↔ false = true) ∧
    (sectionEntry 0x00200000 PTE_SWUR true false false &&& PTE_NX ≠ 0 ↔ false = true) :=
  sectionEntry_roundtrip 0x00200000 PTE_SWUR true false false (by decide) (by decide)
    (by decide)

/-- C5 (evaluation of the code): the five permission constants are not pairwise
distinct.  `PTE_SWUW` and `PTE_SRUR` are the same bit pattern `0x8C00`, so the
list of constants has a repeated element and the permission cannot be decoded
uniquely from the APX/AP bits. -/
theorem PTE_SWUW_collides_with_PTE_SRUR :
    PTE_SWUW = PTE_SRUR ∧ PTE_SWUW = 0x8C00 ∧ ¬ permissionConstants.Nodup ∧
    permissionConstants.dedup.length = 4 := by
  decide

/-- C6 (evaluation of the code): read through the APX/AP table of the header,
`PTE_SWUR` is read-write/read-only, `PTE_SRUR` read-only/read-only, `PTE_SRO`
read-only/no access and `PTE_SWO` read-write/no access, but `PTE_SWUW` is the
pattern the table documents as read-only/read-only, not read-write/read-write. -/
theorem apTable_permission_constants :
    apTable PTE_SWUR = some (Access.readWrite, Access.readOnly) ∧
    apTable PTE_SRUR = some (Access.readOnly, Access.readOnly) ∧
    apTable PTE_SRO = some (Access.readOnly, Access.noAccess) ∧
    apTable PTE_SWO = some (Access.readWrite, Access.noAccess) ∧
    apTable PTE_SWUW = some (Access.readOnly, Access.readOnly) ∧
    apTable PTE_SWUW ≠ some (Access.readWrite, Access.readWrite) := by
  decide

/-- C7 (counterexample): with the misaligned base `0x00100001` the construction
does not fail with `InvalidAlignment`; it yields the entry word `0x0010080B`,
whose `PTE_ADDR` is `0x00100000`, not the base that was passed. -/
theorem make_section_entry_misaligned_ok :
    make_section_entry 0x00100001 PTE_SWUR true false false = Except.ok 0x0010080B ∧
    make_section_entry 0x00100001 PTE_SWUR true false false ≠
      Except.error MmuError.InvalidAlignment ∧
    PTE_ADDR 0x0010080B = 0x00100000 := by
  have hw : sectionEntry 0x00100001 PTE_SWUR true false false = 0x0010080B := by decide
  refine ⟨congrArg Except.ok hw, ?_, by decide⟩
  intro h
  cases h

/-- C7 (amended): building a section entry never fails.  For every 32-bit base
`b`, aligned or not, every permission constant and all flag choices, the
construction yields the word `sectionEntry b p c bf xn`, and the `PTE_ADDR` of
that word is `b` with its low 20 bits cleared (so it is `b` itself when `b` is
1 MiB aligned). -/
theorem make_section_entry_total (b p : Nat) (c bf xn : Bool) (hb : b < 2 ^ 32)
    (hp : p ∈ permissionConstants) :
    make_section_entry b p c bf xn = Except.ok (sectionEntry b p c bf xn) ∧
    PTE_ADDR (sectionEntry b p c bf xn) = b - b % 2 ^ 20 := by
  refine ⟨rfl, ?_⟩
  rw [sectionEntry_eq,
    PTE_ADDR_or_low hb (sectionFlags_lt (mem_permissionConstants_lt hp) c bf xn)]

/-- Witness for the amended C7 at the aligned base `0x00100000`. -/
theorem make_section_entry_total_witness :
    make_section_entry 0x00100000 PTE_SWUR true false false =
      Except.ok (sectionEntry 0x00100000 PTE_SWUR true false false) ∧
    PTE_ADDR (sectionEntry 0x00100000 PTE_SWUR true false false) =
      0x00100000 - 0x00100000 % 2 ^ 20 :=
  make_section_entry_total 0x00100000 PTE_SWUR true false false (by decide) (by decide)

/-- C8 (counterexample): `SETGATE` and `SETCALLGATE` with `dpl = 4` are not
rejected; both complete, and the stored `gd_dpl` is `0`, not `4`. -/
theorem SETGATE_dpl_four_wraps :
    (∃ g, SETGATE_outcome 0xF 0xE zeroGate 0 0x08 0x00101000 4 = Except.ok g ∧
      g.gd_dpl = 0 ∧ g.gd_dpl ≠ 4) ∧
    (∃ g, SETCALLGATE_outcome 0xC zeroGate 0x08 0x00101000 4 = Except.ok g ∧
      g.gd_dpl = 0 ∧ g.gd_dpl ≠ 4) :=
  ⟨⟨_, rfl, by decide, by decide⟩, ⟨_, rfl, by decide, by decide⟩⟩

/-- C8 (amended): gate construction never rejects a privilege level.  For every
`dpl`, `SETGATE` and `SETCALLGATE` complete and the stored `gd_dpl` is `dpl`
reduced modulo 4 (the width of the 2-bit field). -/
theorem SETGATE_dpl_mod_four (tg ig cg : Nat) (gate : Gatedesc)
    (istrap sel off dpl : Nat) :
    SETGATE_outcome tg ig gate istrap sel off dpl =
      Except.ok (SETGATE tg ig gate istrap sel off dpl) ∧
    (SETGATE tg ig gate istrap sel off dpl).gd_dpl = dpl % 4 ∧
    SETCALLGATE_outcome cg gate sel off dpl =
      Except.ok (SETCALLGATE cg gate sel off dpl) ∧
    (SETCALLGATE cg gate sel off dpl).gd_dpl = dpl % 4 :=
  ⟨rfl, rfl, rfl, rfl⟩

/-- C9: gate construction splits the offset losslessly.  For every 32-bit
offset `off` and any other arguments, after `SETGATE` and after `SETCALLGATE`
the field `gd_off_15_0` is `off & 0xFFFF`, `gd_off_31_16` is `off >> 16`, both
fit in 16 bits, and `(gd_off_31_16 << 16) | gd_off_15_0 = off`. -/
theorem SETGATE_offset_split (tg ig cg : Nat) (gate : Gatedesc)
    (istrap sel off dpl : Nat) (h : off < 2 ^ 32) :
    ((SETGATE tg ig gate istrap sel off dpl).gd_off_15_0 = off &&& 0xFFFF ∧
      (SETGATE tg ig gate istrap sel off dpl).gd_off_31_16 = off >>> 16 ∧
      (SETGATE tg ig gate istrap sel off dpl).gd_off_15_0 < 2 ^ 16 ∧
      (SETGATE tg ig gate istrap sel off dpl).gd_off_31_16 < 2 ^ 16 ∧
      ((SETGATE tg ig gate istrap sel off dpl).gd_off_31_16 <<< 16) |||
        (SETGATE tg ig gate istrap sel off dpl).gd_off_15_0 = off) ∧
    ((SETCALLGATE cg gate sel off dpl).gd_off_15_0 = off &&& 0xFFFF ∧
      (SETCALLGATE cg gate sel off dpl).gd_off_31_16 = off >>> 16 ∧
      (SETCALLGATE cg gate sel off dpl).gd_off_15_0 < 2 ^ 16 ∧
      (SETCALLGATE cg gate sel off dpl).gd_off_31_16 < 2 ^ 16 ∧
      ((SETCALLGATE cg gate sel off dpl).gd_off_31_16 <<< 16) |||
        (SETCALLGATE cg gate sel off dpl).gd_off_15_0 = off) := by
  have hlo : bitfield 16 (u32 off &&& 0xffff) = off % 2 ^ 16 := by
    unfold bitfield
    rw [u32_of_lt h, and_low16, Nat.mod_mod]
  have hhi : bitfield 16 (u32 off >>> 16) = off / 2 ^ 16 := by
    unfold bitfield
    rw [u32_of_lt h, Nat.shiftRight_eq_div_pow]
    apply Nat.mod_eq_of_lt
    omega
  have key : off % 2 ^ 16 = off &&& 0xFFFF ∧ off / 2 ^ 16 = off >>> 16 ∧
      off % 2 ^ 16 < 2 ^ 16 ∧ off / 2 ^ 16 < 2 ^ 16 ∧
      ((off / 2 ^ 16) <<< 16) ||| (off % 2 ^ 16) = off := by
    refine ⟨(and_low16 off).symm, (Nat.shiftRight_eq_div_pow off 16).symm,
      Nat.mod_lt _ (by decide), by omega, ?_⟩
    rw [Nat.shiftLeft_eq, Nat.mul_comm,
      ← Nat.mul_add_lt_is_or (Nat.mod_lt off (by decide : 0 < 2 ^ 16))]
    exact Nat.div_add_mod off (2 ^ 16)
  have e1 : (SETGATE tg ig gate istrap sel off dpl).gd_off_15_0 = off % 2 ^ 16 := hlo
  have e2 : (SETGATE tg ig gate istrap sel off dpl).gd_off_31_16 = off / 2 ^ 16 := hhi
  have e3 : (SETCALLGATE cg gate sel off dpl).gd_off_15_0 = off % 2 ^ 16 := hlo
  have e4 : (SETCALLGATE cg gate sel off dpl).gd_off_31_16 = off / 2 ^ 16 := hhi
  rw [e1, e2, e3, e4]
  exact ⟨key, key⟩

/-- Witness for C9 at `off = 0x00101000`: low half `0x1000`, high half `0x0010`. -/
theorem SETGATE_offset_split_witness :
    (SETGATE 0xF 0xE zeroGate 0 0x08 0x00101000 0).gd_off_15_0 = 0x1000 ∧
    (SETGATE 0xF 0xE zeroGate 0 0x08 0x00101000 0).gd_off_31_16 = 0x0010 ∧
    (SETCALLGATE 0xC zeroGate 0x08 0x00101000 0).gd_off_15_0 = 0x1000 ∧
    (SETCALLGATE 0xC zeroGate 0x08 0x00101000 0).gd_off_31_16 = 0x0010 := by
  have h := SETGATE_offset_split 0xF 0xE 0xC zeroGate 0 0x08 0x00101000 0 (by decide)
  exact ⟨h.1.1.trans (by decide), h.1.2.1.trans (by decide),
    h.2.1.trans (by decide), h.2.2.1.trans (by decide)⟩

/-- C10: `SETGATE` postcondition on the non-offset fields.  For every selector
`sel ≤ 0xFFFF`, every `dpl` in `0..3`, every offset, every `istrap` and every
prior descriptor, with `STS_TG32` and `STS_IG32` any 4-bit codes, the result has
`gd_sel = sel`, `gd_args = 0`, `gd_rsv1 = 0`, `gd_s = 0`, `gd_dpl = dpl`,
`gd_p = 1`, and `gd_type` is `STS_TG32` when `istrap` is non-zero and `STS_IG32`
when it is zero. -/
theorem SETGATE_fields (tg ig : Nat) (gate : Gatedesc) (istrap sel off dpl : Nat)
    (htg : tg < 16) (hig : ig < 16) (hsel : sel ≤ 0xFFFF) (hdpl : dpl ≤ 3) :
    (SETGATE tg ig gate istrap sel off dpl).gd_sel = sel ∧
    (SETGATE tg ig gate istrap sel off dpl).gd_args = 0 ∧
    (SETGATE tg ig gate istrap sel off dpl).gd_rsv1 = 0 ∧
    (SETGATE tg ig gate istrap sel off dpl).gd_s = 0 ∧
    (SETGATE tg ig gate istrap sel off dpl).gd_dpl = dpl ∧
    (SETGATE tg ig gate istrap sel off dpl).gd_p = 1 ∧
    (SETGATE tg ig gate istrap sel off dpl).gd_type = (if istrap ≠ 0 then tg else ig) := by
  refine ⟨?_, rfl, rfl, rfl, ?_, rfl, ?_⟩
  · show sel % 2 ^ 16 = sel
    apply Nat.mod_eq_of_lt
    omega
  · show dpl % 2 ^ 2 = dpl
    apply Nat.mod_eq_of_lt
    omega
  · show (if istrap ≠ 0 then tg else ig) % 2 ^ 4 = (if istrap ≠ 0 then tg else ig)
    apply Nat.mod_eq_of_lt
    split <;> omega

/-- Witness for C10: `istrap = 0`, `sel = 0x08`, `dpl = 0`, with the i386 codes
`STS_TG32 = 0xF`, `STS_IG32 = 0xE`, gives `gd_sel = 0x08`, `gd_p = 1` and the
interrupt-gate type. -/
theorem SETGATE_fields_witness :
    (SETGATE 0xF 0xE zeroGate 0 0x08 0x00101000 0).gd_sel = 0x08 ∧
    (SETGATE 0xF 0xE zeroGate 0 0x08 0x00101000 0).gd_p = 1 ∧
    (SETGATE 0xF 0xE zeroGate 0 0x08 0x00101000 0).gd_type = 0xE := by
  have h := SETGATE_fields 0xF 0xE zeroGate 0 0x08 0x00101000 0
    (by decide) (by decide) (by decide) (by decide)
  exact ⟨h.1, h.2.2.2.2.2.1, h.2.2.2.2.2.2⟩

/-- C11: a call gate differs from an interrupt/trap gate only in its type.
For every `sel`, `off`, `dpl`, `istrap` and any prior descriptors, the result of
`SETCALLGATE` is the result of `SETGATE` with `gd_type` replaced, so the two
agree on `gd_off_15_0`, `gd_sel`, `gd_args` (both 0), `gd_rsv1`, `gd_s`,
`gd_dpl`, `gd_p` (both 1) and `gd_off_31_16`; and the call gate's `gd_type` is
the 4-bit code `STS_CG32`, whatever the other arguments. -/
theorem SETCALLGATE_eq_SETGATE_except_type (tg ig cg : Nat) (g1 g2 : Gatedesc)
    (istrap sel off dpl : Nat) (hcg : cg < 16) :
    SETCALLGATE cg g1 sel off dpl =
      { SETGATE tg ig g2 istrap sel off dpl with gd_type := cg } ∧
    (SETCALLGATE cg g1 sel off dpl).gd_off_15_0 =
      (SETGATE tg ig g2 istrap sel off dpl).gd_off_15_0 ∧
    (SETCALLGATE cg g1 sel off dpl).gd_sel = (SETGATE tg ig g2 istrap sel off dpl).gd_sel ∧
    (SETCALLGATE cg g1 sel off dpl).gd_args = (SETGATE tg ig g2 istrap sel off dpl).gd_args ∧
    (SETCALLGATE cg g1 sel off dpl).gd_args = 0 ∧
    (SETCALLGATE cg g1 sel off dpl).gd_rsv1 = (SETGATE tg ig g2 istrap sel off dpl).gd_rsv1 ∧
    (SETCALLGATE cg g1 sel off dpl).gd_s = (SETGATE tg ig g2 istrap sel off dpl).gd_s ∧
    (SETCALLGATE cg g1 sel off dpl).gd_dpl = (SETGATE tg ig g2 istrap sel off dpl).gd_dpl ∧
    (SETCALLGATE cg g1 sel off dpl).gd_p = (SETGATE tg ig g2 istrap sel off dpl).gd_p ∧
    (SETCALLGATE cg g1 sel off dpl).gd_p = 1 ∧
    (SETCALLGATE cg g1 sel off dpl).gd_off_31_16 =
      (SETGATE tg ig g2 istrap sel off dpl).gd_off_31_16 ∧
    (SETCALLGATE cg g1 sel off dpl).gd_type = cg := by
  have ht : (SETCALLGATE cg g1 sel off dpl).gd_type = cg := by
    show cg % 2 ^ 4 = cg
    apply Nat.mod_eq_of_lt
    omega
  have hb : bitfield 4 cg = cg := ht
  refine ⟨?_, rfl, rfl, rfl, rfl, rfl, rfl, rfl, rfl, rfl, rfl, ht⟩
  simp only [SETCALLGATE, SETGATE, hb]

/-- Witness for C11 with the i386 codes `STS_TG32 = 0xF`, `STS_IG32 = 0xE`,
`STS_CG32 = 0xC`: the call gate for `sel = 0x08`, `off = 0x00101000`, `dpl = 3`
is the trap gate for the same arguments with type `0xC`. -/
theorem SETCALLGATE_eq_SETGATE_except_type_witness :
    SETCALLGATE 0xC zeroGate 0x08 0x00101000 3 =
      { SETGATE 0xF 0xE zeroGate 1 0x08 0x00101000 3 with gd_type := 0xC } ∧
    (SETCALLGATE 0xC zeroGate 0x08 0x00101000 3).gd_type = 0xC :=
  ⟨(SETCALLGATE_eq_SETGATE_except_type 0xF 0xE 0xC zeroGate zeroGate 1 0x08 0x00101000 3
      (by decide)).1,
    by decide⟩

/-- C12: entry-type classification looks only at bits [1:0].  For every 32-bit
entry word `w`, `w & PTE_P_MASK` is `w mod 4`; the section test
`(w & PTE_P_MASK) == PTE_P` holds exactly when `w mod 4 = 2` (bits `0b10`); so a
word whose low two bits are `0b00`, `0b01` or `0b11` is not classified as a
section, whatever its other 30 bits are. -/
theorem PTE_P_MASK_low_two_bits (w : Nat) (_hw : w < 2 ^ 32) :
    w &&& PTE_P_MASK = w % 4 ∧
    (w &&& PTE_P_MASK = PTE_P ↔ w % 4 = 2) ∧
    (w % 4 = 0 ∨ w % 4 = 1 ∨ w % 4 = 3 → w &&& PTE_P_MASK ≠ PTE_P) := by
  have h : w &&& PTE_P_MASK = w % 4 := Nat.and_pow_two_sub_one_eq_mod w 2
  rw [h]
  unfold PTE_P
  refine ⟨rfl, Iff.rfl, ?_⟩
  omega

/-- Witness for C12 at `w = 0xFFFFFFFD` (low bits `0b01`, all other bits set):
not a section. -/
theorem PTE_P_MASK_low_two_bits_witness : 0xFFFFFFFD &&& PTE_P_MASK ≠ PTE_P :=
  (PTE_P_MASK_low_two_bits 0xFFFFFFFD (by decide)).2.2 (by decide)

/-- C13: `PTX` and `PGOFF` are the reference field extraction.  For every 32-bit
unsigned address `addr`, `PTX(addr) = addr div 2^20` and
`PGOFF(addr) = addr mod 2^20`. -/
theorem PTX_PGOFF_reference (addr : Nat) (h : addr < 2 ^ 32) :
    PTX addr = addr / 2 ^ 20 ∧ PGOFF addr = addr % 2 ^ 20 :=
  ⟨PTX_eq_div h, PGOFF_eq_mod h⟩

/-- Witness for C13 at `addr = 0xDEADBEEF`: index `0xDEA`, offset `0xDBEEF`. -/
theorem PTX_PGOFF_reference_witness :
    PTX 0xDEADBEEF = 0xDEADBEEF / 2 ^ 20 ∧ PGOFF 0xDEADBEEF = 0xDEADBEEF % 2 ^ 20 :=
  PTX_PGOFF_reference 0xDEADBEEF (by decide)

/-- C14: the unmasked page number equals the masked table index.  For every
address `addr` (converted to 32 bits by the cast in both macros),
`PGNUM(addr) = PTX(addr)`. -/
theorem PGNUM_eq_PTX (addr : Nat) : PGNUM addr = PTX addr := by
  unfold PGNUM PTX PTXSHIFT u32
  rw [and_low12, Nat.shiftRight_eq_div_pow]
  symm
  apply Nat.mod_eq_of_lt
  have := Nat.mod_lt addr (by decide : 0 < 2 ^ 32)
  omega

/-- C15: pseudo-descriptor round trip.  For every 16-bit limit `l` and every
32-bit base `b`, a `Pseudodesc` initialised with them reads back `pd_lim = l`
and `pd_base = b`; its two fields take 16 + 32 = 48 bits, the 6 bytes of the
packed record. -/
theorem Pseudodesc_roundtrip (l b : Nat) (hl : l < 2 ^ 16) (hb : b < 2 ^ 32) :
    (Pseudodesc.init l b).pd_lim = l ∧ (Pseudodesc.init l b).pd_base = b ∧
    Pseudodesc_widths.sum = 48 ∧ Pseudodesc_widths.sum = 6 * 8 :=
  ⟨Nat.mod_eq_of_lt hl, u32_of_lt hb, by decide, by decide⟩

/-- Witness for C15 at the largest limit and base. -/
theorem Pseudodesc_roundtrip_witness :
    (Pseudodesc.init 0xFFFF 0xFFFFFFFF).pd_lim = 0xFFFF ∧
    (Pseudodesc.init 0xFFFF 0xFFFFFFFF).pd_base = 0xFFFFFFFF ∧
    Pseudodesc_widths.sum = 48 ∧ Pseudodesc_widths.sum = 6 * 8 :=
  Pseudodesc_roundtrip 0xFFFF 0xFFFFFFFF (by decide) (by decide)

/-- C16: the table index is always in bounds.  For every address `addr`,
`PTX(addr) < NPTENTRIES` and `PGOFF(addr) < PGSIZE`. -/
theorem PTX_lt_NPTENTRIES (addr : Nat) :
    PTX addr < NPTENTRIES ∧ PGOFF addr < PGSIZE := by
  unfold PTX PGOFF NPTENTRIES PGSIZE
  rw [and_low12, and_low20]
  exact ⟨Nat.mod_lt _ (by decide), Nat.mod_lt _ (by decide)⟩

/-- C17: the flag constants sit at their documented bit positions and do not
overlap.  `PTE_AP_X` is bit 15 together with bits 11:10, `PTE_NX` bit 4, `PTE_C`
bit 3, `PTE_B` bit 2, `PTE_P_MASK` bits 1:0; the five masks are pairwise
bit-disjoint; `PTE_ADDR` of each is 0; and every permission constant has no bit
outside `PTE_AP_X`. -/
theorem flag_constants_layout :
    (PTE_AP_X = (1 <<< 15) ||| (3 <<< 10) ∧ PTE_NX = 1 <<< 4 ∧ PTE_C = 1 <<< 3 ∧
      PTE_B = 1 <<< 2 ∧ PTE_P_MASK = 3) ∧
    List.Pairwise (fun a b => a &&& b = 0) [PTE_AP_X, PTE_NX, PTE_C, PTE_B, PTE_P_MASK] ∧
    (∀ m ∈ [PTE_AP_X, PTE_NX, PTE_C, PTE_B, PTE_P_MASK], PTE_ADDR m = 0) ∧
    (∀ p ∈ permissionConstants, p &&& (2 ^ 32 - 1 - PTE_AP_X) = 0) := by
  decide

/-- C18: task-state layout.  With the fields of `struct Taskstate` in
declaration order and offsets as running sums of the field sizes, every one of
the ten segment-selector fields starts at a multiple of 4 and is immediately
followed by a 2-byte `ts_paddingN` field; every 4-byte field starts at a
multiple of 4 and every 2-byte field at a multiple of 2, so no implicit padding
is needed; and the record is 104 bytes long. -/
theorem Taskstate_layout :
    (∀ s ∈ Taskstate_selectors, Taskstate_offset s % 4 = 0 ∧
      (Taskstate_next s).map (fun e => (e.1.isPadding, e.2.size)) = some (true, 2)) ∧
    (∀ e ∈ Taskstate_fields, e.2.size = 4 → Taskstate_offset e.1 % 4 = 0) ∧
    (∀ e ∈ Taskstate_fields, e.2.size = 2 → Taskstate_offset e.1 % 2 = 0) ∧
    (Taskstate_fields.map (fun e => e.1)).Nodup ∧
    Taskstate_fields.length = 37 ∧
    Taskstate_size = 104 := by
  decide

/-- C19: gate construction leaves nothing uninitialised.  The nine `Gatedesc`
field widths sum to 64 bits (8 bytes), and `SETGATE` and `SETCALLGATE` assign
all nine fields: for any two prior descriptors and the same arguments the
results are equal. -/
theorem SETGATE_prior_independent (tg ig cg : Nat) (g1 g2 : Gatedesc)
    (istrap sel off dpl : Nat) :
    Gatedesc_widths.length = 9 ∧ Gatedesc_widths.sum = 64 ∧ Gatedesc_widths.sum = 8 * 8 ∧
    SETGATE tg ig g1 istrap sel off dpl = SETGATE tg ig g2 istrap sel off dpl ∧
    SETCALLGATE cg g1 sel off dpl = SETCALLGATE cg g2 sel off dpl :=
  ⟨by decide, by decide, by decide, rfl, rfl⟩

/-- C20 (evaluation of the code): `PGSHIFT` is the base-2 logarithm of `PGSIZE`,
but `PTSHIFT` is not that of `PTSIZE`: `2 ^ PTSHIFT` is `2 ^ 32`, which is
`NPTENTRIES * PGSIZE`, while `PTSIZE` is `0x400000 = 2 ^ 22`. -/
theorem PTSHIFT_not_log2_PTSIZE :
    2 ^ PGSHIFT = PGSIZE ∧ 2 ^ PTSHIFT ≠ PTSIZE ∧ PTSIZE = 2 ^ 22 ∧
    2 ^ PTSHIFT = NPTENTRIES * PGSIZE := by
  decide

end Mmu
